import Mathlib

/-!
Verification of the purchase-requisition ingestion pipeline (`app.py`).

The development shallowly embeds the pipeline's pure core:
* the end-date normalization (`datetime.fromisoformat` on 'Z'-suffixed UTC
  instants, `astimezone(Asia/Tokyo)`, `strftime`), modelled through a
  proleptic-Gregorian calendar over seconds since 1970-01-01T00:00:00Z
  (the pipeline only ever sees instants with `end_date >= today`, where
  Asia/Tokyo is the fixed offset +9:00 with no DST);
* the record normalizer `parse_documents_list`;
* the persistence routine `save_documents_to_db`, with an explicit
  fault-injection parameter standing for a `pyodbc.Error` raised at each
  database call site, and the destination table as a list of rows
  (uncommitted work is discarded when the connection closes);
* the auth-key builder `generate_auth_key` (UTF-8 then standard Base64);
* the driver `main`.
-/

/-- Gregorian leap-year rule (as used by Python's `datetime`). -/
def isLeap (y : Nat) : Bool := y % 4 == 0 && (y % 100 != 0 || y % 400 == 0)

/-- Number of days in year `y`. -/
def yearLen (y : Nat) : Nat := if isLeap y then 366 else 365

/-- Month lengths for a (non-)leap year, January first. -/
def monthLens (leap : Bool) : List Nat :=
  [31, if leap then 29 else 28, 31, 30, 31, 30, 31, 31, 30, 31, 30, 31]

/-- Days in the `k` consecutive years `y, y+1, ..., y+k-1`. -/
def daysInRange : Nat → Nat → Nat
  | _, 0 => 0
  | y, k + 1 => yearLen y + daysInRange (y + 1) k

/-- Days strictly before month `m` (1-based) in a year with month lengths `lens`. -/
def daysBeforeMonth (lens : List Nat) (m : Nat) : Nat := (lens.take (m - 1)).sum

/-- Locate the year containing day-number `n` counted from Jan 1 of year `y`;
returns the year and the remaining day-of-year.  `fuel` bounds the search. -/
def yearSearch : Nat → Nat → Nat → Nat × Nat
  | 0, y, n => (y, n)
  | fuel + 1, y, n =>
    if n < yearLen y then (y, n) else yearSearch fuel (y + 1) (n - yearLen y)

/-- Locate the month (1-based, starting at `m`) and day-of-month (1-based)
for day-of-year remainder `r`, walking the month-length list. -/
def monthSearch : List Nat → Nat → Nat → Nat × Nat
  | [], m, r => (m, r + 1)
  | len :: rest, m, r =>
    if r < len then (m, r + 1) else monthSearch rest (m + 1) (r - len)

/-- A civil date-time (proleptic Gregorian, second precision). -/
structure CivilDT where
  y : Nat
  m : Nat
  d : Nat
  hh : Nat
  mi : Nat
  ss : Nat
  deriving DecidableEq, Repr

/-- Day number of a civil date, counted from 1970-01-01 (day 0). -/
def civilToDays (y m d : Nat) : Nat :=
  daysInRange 1970 (y - 1970) + daysBeforeMonth (monthLens (isLeap y)) m + (d - 1)

/-- Civil date of day number `n` counted from 1970-01-01. -/
def daysToCivil (n : Nat) : Nat × Nat × Nat :=
  let p := yearSearch (n / 365 + 1) 1970 n
  let q := monthSearch (monthLens (isLeap p.1)) 1 p.2
  (p.1, q.1, q.2)

/-- Seconds since 1970-01-01T00:00:00 of a civil date-time (the POSIX
timestamp that `datetime` arithmetic is based on). -/
def civilDTtoEpoch (c : CivilDT) : Nat :=
  86400 * civilToDays c.y c.m c.d + 3600 * c.hh + 60 * c.mi + c.ss

/-- Civil date-time of a count of seconds since 1970-01-01T00:00:00. -/
def epochToCivilDT (t : Nat) : CivilDT :=
  let c := daysToCivil (t / 86400)
  let r := t % 86400
  ⟨c.1, c.2.1, c.2.2, r / 3600, r % 3600 / 60, r % 60⟩

/-- Zero-padded two-digit decimal rendering (as `strftime` does). -/
def pad2 (n : Nat) : String := if n < 10 then "0" ++ toString n else toString n

/-- Zero-padded four-digit decimal rendering (as `strftime`'s `%Y`). -/
def pad4 (n : Nat) : String :=
  if n < 10 then "000" ++ toString n
  else if n < 100 then "00" ++ toString n
  else if n < 1000 then "0" ++ toString n
  else toString n

/-- `strftime('%Y-%m-%d %H:%M:%S')` (app.py line 138). -/
def renderSQL (c : CivilDT) : String :=
  pad4 c.y ++ "-" ++ pad2 c.m ++ "-" ++ pad2 c.d ++ " " ++
    pad2 c.hh ++ ":" ++ pad2 c.mi ++ ":" ++ pad2 c.ss

/-- Value of a decimal digit character. -/
def digitVal (c : Char) : Nat := c.toNat - 48

/-- Parse an ISO-8601 'Z'-suffixed UTC instant `YYYY-MM-DDTHH:MM:SSZ`.
Models app.py line 131, `datetime.fromisoformat(end_date.replace("Z", "+00:00"))`,
on the second-precision 'Z'-suffixed shape the workflow API emits; the
embedding's domain is restricted to years from 1970 on (the pipeline queries
`end_date >= today`, so earlier instants never occur).  Any string
`fromisoformat` rejects raises `ValueError`, modelled as `none`. -/
def parseISOZ (str : String) : Option CivilDT :=
  match str.toList with
  | [y1, y2, y3, y4, '-', o1, o2, '-', d1, d2, 'T',
     h1, h2, ':', n1, n2, ':', s1, s2, 'Z'] =>
    if ([y1, y2, y3, y4, o1, o2, d1, d2, h1, h2, n1, n2, s1, s2].all Char.isDigit) then
      let y := 1000 * digitVal y1 + 100 * digitVal y2 + 10 * digitVal y3 + digitVal y4
      let mo := 10 * digitVal o1 + digitVal o2
      let d := 10 * digitVal d1 + digitVal d2
      let h := 10 * digitVal h1 + digitVal h2
      let mi := 10 * digitVal n1 + digitVal n2
      let s := 10 * digitVal s1 + digitVal s2
      if 1970 ≤ y ∧ 1 ≤ mo ∧ mo ≤ 12 ∧ 1 ≤ d ∧
          d ≤ (monthLens (isLeap y)).getD (mo - 1) 31 ∧ h < 24 ∧ mi < 60 ∧ s < 60 then
        some ⟨y, mo, d, h, mi, s⟩
      else none
    else none
  | _ => none

/-- End-date conversion of app.py lines 130-138: parse the UTC instant,
convert it to Asia/Tokyo (`astimezone` keeps the instant and re-expresses it
at the zone's offset, which on this domain is the fixed +9:00 = 32400 s),
and format as `YYYY-MM-DD HH:MM:SS`. -/
def convert_end_date (s : String) : Option String :=
  match parseISOZ s with
  | none => none
  | some dt => some (renderSQL (epochToCivilDT (civilDTtoEpoch dt + 32400)))

/-- The configuration read from `config.yml` (app.py lines 34-38): the
destination table name and the factory-code map `request_factory_list`
(an association list standing for the YAML mapping; keys are unique and,
per the config contract, single characters). -/
structure Config where
  table_name : String
  request_factory_list : List (String × String)
  deriving DecidableEq, Repr

/-- A raw record of the API response, with the fields app.py reads
(`request_user.name` and `request_group.name` already projected from
their nested objects). -/
structure RawRecord where
  document_id : Int
  document_number : String
  title : String
  request_user_name : String
  request_group_name : String
  end_date : String
  deriving DecidableEq, Repr

/-- The decoded API response body: `records` is `none` when the top-level
`records` key is absent (app.py line 128 tests `"records" in data`). -/
structure RawData where
  records : Option (List RawRecord)
  deriving DecidableEq, Repr

/-- A canonical document built by `parse_documents_list` (app.py lines
140-155).  `request_factory` is `none` exactly when the key is absent from
the Python dict. -/
structure Document where
  document_id : Int
  document_number : String
  title : String
  request_user : String
  request_group : String
  end_date : String
  form_id : Int
  request_factory : Option String
  deriving DecidableEq, Repr

/-- Python's `document_number[3:4]` on code points: the one-character
substring at index 3, empty when the string is shorter than 4 characters
(slicing out of range yields `""`, not an error). -/
def slice34 (s : String) : String := String.mk ((s.toList.drop 3).take 1)

/-- Normalization of one record (app.py lines 130-155): convert `end_date`
(raising `ValueError` when `fromisoformat` cannot parse it, modelled as
`.error`), project the flat fields, and for `form_id = 40` resolve the
factory code `document_number[3:4]` through `request_factory_list`,
falling back to the sentinel `"不明"` when the code is not a key. -/
def parseRecord (cfg : Config) (form_id : Int) (r : RawRecord) : Except String Document :=
  match convert_end_date r.end_date with
  | none => .error "ValueError: invalid isoformat string"
  | some fed =>
    .ok { document_id := r.document_id
          document_number := r.document_number
          title := r.title
          request_user := r.request_user_name
          request_group := r.request_group_name
          end_date := fed
          form_id := form_id
          request_factory :=
            if form_id = 40 then
              some (match cfg.request_factory_list.lookup (slice34 r.document_number) with
                    | some v => v
                    | none => "不明")
            else none }

/-- The record loop of app.py lines 129-156: records are normalized in
order and appended; an exception raised while normalizing one record
propagates out of the loop (there is no per-record handler), so the whole
call fails with that error. -/
def parseRecords (cfg : Config) (form_id : Int) : List RawRecord → Except String (List Document)
  | [] => .ok []
  | r :: rest =>
    match parseRecord cfg form_id r with
    | .error e => .error e
    | .ok d =>
      match parseRecords cfg form_id rest with
      | .error e => .error e
      | .ok ds => .ok (d :: ds)

/-- `parse_documents_list` (app.py lines 111-158): when the response has no
`records` key the empty list is returned; otherwise each record is
normalized in input order. -/
def parse_documents_list (cfg : Config) (data : RawData) (form_id : Int := 40) :
    Except String (List Document) :=
  match data.records with
  | none => .ok []
  | some recs => parseRecords cfg form_id recs

/-- A row of the destination table (schema of `create_table`,
app.py lines 167-180; `request_factory` defaults to the empty string). -/
structure Row where
  document_id : Int
  document_number : String
  title : String
  request_user : String
  request_group : String
  request_factory : String
  form_id : Int
  end_date : String
  deriving DecidableEq, Repr

/-- The row the INSERT of app.py lines 212-232 builds from a document
(`document.get("request_factory", "")` supplies `""` when absent). -/
def rowOf (d : Document) : Row :=
  { document_id := d.document_id
    document_number := d.document_number
    title := d.title
    request_user := d.request_user
    request_group := d.request_group
    request_factory := d.request_factory.getD ""
    form_id := d.form_id
    end_date := d.end_date }

/-- Whether the table holds a row with this `document_id` (the
`IF NOT EXISTS (SELECT 1 ... WHERE document_id = ?)` test). -/
def hasId (table : List Row) (i : Int) : Bool := table.any fun r => r.document_id == i

/-- One insert-if-absent statement (app.py lines 212-232): insert the row
unless a row with the same `document_id` exists. -/
def insertDoc (table : List Row) (d : Document) : List Row :=
  if hasId table d.document_id then table else table ++ [rowOf d]

/-- The insert loop over the whole document list (app.py lines 211-232). -/
def insertAll (table : List Row) (docs : List Document) : List Row :=
  docs.foldl insertDoc table

/-- A `pyodbc.Error` injected at one of the database call sites of
`save_documents_to_db`, or `noFault` for an error-free run.
`atInsert i` stands for the statement of the `i`-th loop iteration
(0-based) raising; it can only fire when `i` is below the number of
documents. -/
inductive DbFault where
  | noFault
  | atConnect
  | atCreate
  | atCount1
  | atInsert (i : Nat)
  | atCount2
  | atCommit
  deriving DecidableEq, Repr

/-- Whether the injected fault is actually reached on this document list. -/
def faultFires (f : DbFault) (docs : List Document) : Bool :=
  match f with
  | .noFault => false
  | .atInsert i => i < docs.length
  | _ => true

/-- Outcome of one `save_documents_to_db` call: the returned count, the
committed table content after the connection closes, whether an exception
propagated to the caller, and whether an error message was printed/logged. -/
structure SaveOutcome where
  count : Nat
  table : List Row
  raised : Bool
  errorLogged : Bool
  deriving DecidableEq, Repr

/-- `save_documents_to_db` (app.py lines 190-250) with fault injection.

Fault-free run: connect, `create_table`, `SELECT COUNT(*)`, one
insert-if-absent per document, `SELECT COUNT(*)` again,
`newly_added_count = new_count - current_count`, commit; the count and the
new table content are returned and nothing is raised or logged as an error.

Faulty runs.  A `pyodbc.Error` anywhere is caught by the `except` clause
(printed and logged, never re-raised), and the connection is closed in
`finally` without a commit, which discards the uncommitted work, so the
table is unchanged on every fault path:
* `atConnect`, `atCount1`, `atInsert i` (`i` < number of documents),
  `atCount2`: `newly_added_count` still holds its initial 0;
* `atCreate`: `create_table` catches the exception itself, prints/logs, and
  returns `False`, so the whole insert block is skipped and 0 is returned
  (no exception even reaches the outer handler);
* `atCommit`: line 239 has already assigned
  `newly_added_count = new_count - current_count` before `conn.commit()`
  raises, so that positive delta is returned although nothing was
  committed;
* `atInsert i` with `i` not below the number of documents never fires and
  the run completes like `noFault`. -/
def save_documents_to_db (fault : DbFault) (table : List Row) (docs : List Document) :
    SaveOutcome :=
  match fault with
  | .atConnect => ⟨0, table, false, true⟩
  | .atCreate => ⟨0, table, false, true⟩
  | .atCount1 => ⟨0, table, false, true⟩
  | .atCount2 => ⟨0, table, false, true⟩
  | .atCommit => ⟨(insertAll table docs).length - table.length, table, false, true⟩
  | .atInsert i =>
    if i < docs.length then ⟨0, table, false, true⟩
    else ⟨(insertAll table docs).length - table.length, insertAll table docs, false, false⟩
  | .noFault =>
    ⟨(insertAll table docs).length - table.length, insertAll table docs, false, false⟩

/-- UTF-8 encoding of one Unicode code point (Python's `str.encode('utf-8')`). -/
def encodeCharUtf8 (n : Nat) : List Nat :=
  if n < 128 then [n]
  else if n < 2048 then [192 + n / 64, 128 + n % 64]
  else if n < 65536 then [224 + n / 4096, 128 + n / 64 % 64, 128 + n % 64]
  else [240 + n / 262144, 128 + n / 4096 % 64, 128 + n / 64 % 64, 128 + n % 64]

/-- UTF-8 byte sequence of a string. -/
def utf8Bytes (s : String) : List Nat := s.toList.flatMap fun c => encodeCharUtf8 c.toNat

/-- The standard Base64 alphabet. -/
def b64Char (n : Nat) : Char :=
  "ABCDEFGHIJKLMNOPQRSTUVWXYZabcdefghijklmnopqrstuvwxyz0123456789+/".toList.getD n 'A'

/-- Standard Base64 with `=` padding (Python's `base64.b64encode`). -/
def base64Encode : List Nat → String
  | [] => ""
  | [a] => String.mk [b64Char (a / 4), b64Char (a % 4 * 16), '=', '=']
  | [a, b] => String.mk [b64Char (a / 4), b64Char (a % 4 * 16 + b / 16), b64Char (b % 16 * 4), '=']
  | a :: b :: c :: rest =>
    String.mk [b64Char (a / 4), b64Char (a % 4 * 16 + b / 16),
      b64Char (b % 16 * 4 + c / 64), b64Char (c % 64)] ++ base64Encode rest

/-- `generate_auth_key` (app.py lines 99-108): concatenate
`user_id + "/apikey:" + api_key`, UTF-8 encode, Base64 encode, decode the
ASCII result back to a string (the identity on Base64 output). -/
def generate_auth_key (user_id api_key : String) : String :=
  base64Encode (utf8Bytes (user_id ++ "/apikey:" ++ api_key))

/-- Observable outcome of one `main` run (app.py lines 40-56). -/
structure RunOutcome where
  printedFailure : Bool
  parseAttempted : Bool
  saveAttempted : Bool
  table : List Row
  crashed : Option String
  deriving DecidableEq, Repr

/-- `main` (app.py lines 40-56), given the result of `get_data` (`none`
models `get_data` returning `None` after a transport, HTTP-status or JSON
decode failure) and the current table.

On the failure branch `main` prints `"検索結果が取得できませんでした。"` and then
evaluates `logging.ERROR("...")` (line 56); `logging.ERROR` is the integer
level constant 40, not a callable, so this call raises `TypeError`, which
nothing catches — the run crashes after the print, and the database is
never touched.  On the success branch a `ValueError` raised inside
`parse_documents_list` also propagates uncaught; otherwise the documents
are saved and the summary is printed. -/
def main_run (cfg : Config) (fetched : Option RawData) (form_id : Int)
    (fault : DbFault) (table : List Row) : RunOutcome :=
  match fetched with
  | none => ⟨true, false, false, table, some "TypeError"⟩
  | some data =>
    match parse_documents_list cfg data form_id with
    | .error _ => ⟨false, true, false, table, some "ValueError"⟩
    | .ok docs =>
      let r := save_documents_to_db fault table docs
      ⟨false, true, true, r.table, none⟩

/-- Example configuration: factory code `"C"` maps to `"Nagoya"`. -/
def exCfg : Config := ⟨"purchase_requisitions", [("C", "Nagoya")]⟩

/-- Example configuration with an empty factory map. -/
def exCfgEmpty : Config := ⟨"purchase_requisitions", []⟩

/-- Example raw record: `document_number[3:4] = "C"`, end date
`2024-03-15T01:30:00Z`. -/
def exRec : RawRecord := ⟨101, "AB1CDEF", "title", "user", "group", "2024-03-15T01:30:00Z"⟩

/-- Example raw record whose `end_date` `fromisoformat` cannot parse. -/
def badRec : RawRecord := ⟨102, "AB1XDEF", "title2", "user2", "group2", "not-a-date"⟩

/-- The canonical document `parse_documents_list` builds from `exRec`
under `exCfg` with `form_id = 40`. -/
def exDocNagoya : Document :=
  ⟨101, "AB1CDEF", "title", "user", "group", "2024-03-15 10:30:00", 40, some "Nagoya"⟩

/-- The canonical document built from `exRec` with `form_id = 41`. -/
def exDoc41 : Document :=
  ⟨101, "AB1CDEF", "title", "user", "group", "2024-03-15 10:30:00", 41, none⟩

/-- A second example document with a distinct `document_id`. -/
def exDoc2 : Document :=
  ⟨202, "XY9ZQRS", "t2", "u2", "g2", "2024-03-16 09:00:00", 40, some "不明"⟩

/-- The canonical document built from `exRec` under the empty factory map:
the code `"C"` is unmapped, so the sentinel `"不明"` is used. -/
def exDocUnknown : Document :=
  ⟨101, "AB1CDEF", "title", "user", "group", "2024-03-15 10:30:00", 40, some "不明"⟩

theorem yearLen_ge (y : Nat) : 365 ≤ yearLen y := by
  unfold yearLen; split <;> omega

theorem yearLen_le (y : Nat) : yearLen y ≤ 366 := by
  unfold yearLen; split <;> omega

theorem yearSearch_spec (fuel : Nat) : ∀ y n, n < 365 * fuel →
    ∃ k, (yearSearch fuel y n).1 = y + k ∧
      daysInRange y k + (yearSearch fuel y n).2 = n ∧
      (yearSearch fuel y n).2 < yearLen (yearSearch fuel y n).1 := by
  induction fuel with
  | zero => intro y n h; omega
  | succ fuel ih =>
    intro y n h
    by_cases hn : n < yearLen y
    · refine ⟨0, ?_, ?_, ?_⟩ <;> simp [yearSearch, hn, daysInRange]
    · have h365 := yearLen_ge y
      have hrec : n - yearLen y < 365 * fuel := by omega
      obtain ⟨k, hk1, hk2, hk3⟩ := ih (y + 1) (n - yearLen y) hrec
      refine ⟨k + 1, ?_, ?_, ?_⟩ <;>
        simp only [yearSearch, if_neg hn, daysInRange] at * <;> omega

theorem monthLens_sum (leap : Bool) : (monthLens leap).sum = yearLen 1970 + (if leap then 1 else 0) := by
  cases leap <;> decide

set_option maxRecDepth 8000 in
theorem monthSearch_spec_leap : ∀ r, r < 366 →
    daysBeforeMonth (monthLens true) (monthSearch (monthLens true) 1 r).1 +
      ((monthSearch (monthLens true) 1 r).2 - 1) = r := by decide

set_option maxRecDepth 8000 in
theorem monthSearch_spec_nonleap : ∀ r, r < 365 →
    daysBeforeMonth (monthLens false) (monthSearch (monthLens false) 1 r).1 +
      ((monthSearch (monthLens false) 1 r).2 - 1) = r := by decide

theorem daysToCivil_roundtrip (n : Nat) :
    civilToDays (daysToCivil n).1 (daysToCivil n).2.1 (daysToCivil n).2.2 = n := by
  have hfuel : n < 365 * (n / 365 + 1) := by omega
  obtain ⟨k, hk1, hk2, hk3⟩ := yearSearch_spec (n / 365 + 1) 1970 n hfuel
  set p := yearSearch (n / 365 + 1) 1970 n with hp
  have hm : daysBeforeMonth (monthLens (isLeap p.1))
      (monthSearch (monthLens (isLeap p.1)) 1 p.2).1 +
      ((monthSearch (monthLens (isLeap p.1)) 1 p.2).2 - 1) = p.2 := by
    rcases hLeap : isLeap p.1 with _ | _
    · apply monthSearch_spec_nonleap
      have := hk3; rw [yearLen, hLeap] at this; simpa using this
    · apply monthSearch_spec_leap
      have := hk3; rw [yearLen, hLeap] at this; simpa using this
  show civilToDays p.1 (monthSearch (monthLens (isLeap p.1)) 1 p.2).1
      (monthSearch (monthLens (isLeap p.1)) 1 p.2).2 = n
  unfold civilToDays
  have hy : p.1 - 1970 = k := by omega
  rw [hy]
  omega

theorem epoch_roundtrip (t : Nat) : civilDTtoEpoch (epochToCivilDT t) = t := by
  unfold epochToCivilDT civilDTtoEpoch
  simp only
  rw [daysToCivil_roundtrip]
  omega

theorem insertAll_nil (t : List Row) : insertAll t [] = t := rfl

theorem insertAll_cons (t : List Row) (d : Document) (rest : List Document) :
    insertAll t (d :: rest) = insertAll (insertDoc t d) rest := rfl

theorem hasId_append (t : List Row) (r : Row) (i : Int) :
    hasId (t ++ [r]) i = (hasId t i || (r.document_id == i)) := by
  simp [hasId, List.any_append]

theorem hasId_insertDoc (t : List Row) (d : Document) (i : Int)
    (h : hasId t i = true) : hasId (insertDoc t d) i = true := by
  unfold insertDoc
  split
  · exact h
  · simp [hasId_append, h]

theorem hasId_insertAll (docs : List Document) : ∀ (t : List Row) (i : Int),
    hasId t i = true → hasId (insertAll t docs) i = true := by
  induction docs with
  | nil => intro t i h; exact h
  | cons d rest ih =>
    intro t i h
    rw [insertAll_cons]
    exact ih _ _ (hasId_insertDoc t d i h)

theorem hasId_insertDoc_self (t : List Row) (d : Document) :
    hasId (insertDoc t d) d.document_id = true := by
  unfold insertDoc
  split
  · assumption
  · simp [hasId_append, rowOf]

theorem hasId_insertAll_mem (docs : List Document) : ∀ (t : List Row) (d : Document),
    d ∈ docs → hasId (insertAll t docs) d.document_id = true := by
  induction docs with
  | nil => intro t d h; cases h
  | cons a rest ih =>
    intro t d hd
    rw [insertAll_cons]
    rcases List.mem_cons.mp hd with h | h
    · subst h
      exact hasId_insertAll rest _ _ (hasId_insertDoc_self t d)
    · exact ih _ _ h

theorem insertAll_of_all_present (docs : List Document) : ∀ t : List Row,
    (∀ d ∈ docs, hasId t d.document_id = true) → insertAll t docs = t := by
  induction docs with
  | nil => intro t _; rfl
  | cons a rest ih =>
    intro t h
    rw [insertAll_cons]
    have ha : insertDoc t a = t := by
      unfold insertDoc
      rw [if_pos (h a (List.mem_cons_self a rest))]
    rw [ha]
    exact ih t fun d hd => h d (List.mem_cons_of_mem a hd)

theorem insertAll_length_of_fresh (docs : List Document) : ∀ t : List Row,
    docs.Pairwise (fun a b => a.document_id ≠ b.document_id) →
    (∀ d ∈ docs, hasId t d.document_id = false) →
    (insertAll t docs).length = t.length + docs.length := by
  induction docs with
  | nil => intro t _ _; simp [insertAll_nil]
  | cons a rest ih =>
    intro t hp hf
    rw [insertAll_cons]
    have ha : insertDoc t a = t ++ [rowOf a] := by
      unfold insertDoc
      rw [if_neg]
      rw [hf a (List.mem_cons_self a rest)]
      simp
    rcases List.pairwise_cons.mp hp with ⟨hab, hrest⟩
    have hf2 : ∀ d ∈ rest, hasId (t ++ [rowOf a]) d.document_id = false := by
      intro d hd
      rw [hasId_append]
      have h1 := hf d (List.mem_cons_of_mem a hd)
      have h2 : (rowOf a).document_id ≠ d.document_id := hab d hd
      simp only [h1, Bool.false_or]
      exact beq_eq_false_iff_ne.mpr h2
    rw [ha, ih (t ++ [rowOf a]) hrest hf2]
    simp
    omega

theorem parseRecords_ok_mem (cfg : Config) (fid : Int) : ∀ (recs : List RawRecord)
    (docs : List Document), parseRecords cfg fid recs = .ok docs →
    ∀ doc ∈ docs, ∃ r ∈ recs, parseRecord cfg fid r = .ok doc := by
  intro recs
  induction recs with
  | nil =>
    intro docs h doc hd
    simp only [parseRecords, Except.ok.injEq] at h
    subst h
    cases hd
  | cons a rest ih =>
    intro docs h doc hd
    simp only [parseRecords] at h
    cases ha : parseRecord cfg fid a with
    | error e => rw [ha] at h; cases h
    | ok d =>
      rw [ha] at h
      cases hrest : parseRecords cfg fid rest with
      | error e => rw [hrest] at h; cases h
      | ok ds =>
        rw [hrest] at h
        simp only [Except.ok.injEq] at h
        subst h
        rcases List.mem_cons.mp hd with h1 | h1
        · exact ⟨a, List.mem_cons_self a rest, h1 ▸ ha⟩
        · obtain ⟨r, hr, hrp⟩ := ih ds hrest doc h1
          exact ⟨r, List.mem_cons_of_mem a hr, hrp⟩

theorem parseRecord_factory_none (cfg : Config) (fid : Int) (r : RawRecord)
    (doc : Document) (h40 : fid ≠ 40) (hok : parseRecord cfg fid r = .ok doc) :
    doc.request_factory = none := by
  unfold parseRecord at hok
  cases hc : convert_end_date r.end_date with
  | none => rw [hc] at hok; cases hok
  | some fed =>
    rw [hc] at hok
    simp only [Except.ok.injEq] at hok
    subst hok
    simp [if_neg h40]

theorem parseRecords_error_of_bad (cfg : Config) (fid : Int) : ∀ (recs : List RawRecord)
    (r : RawRecord), r ∈ recs → convert_end_date r.end_date = none →
    ∃ e, parseRecords cfg fid recs = .error e := by
  intro recs
  induction recs with
  | nil => intro r h; cases h
  | cons a rest ih =>
    intro r hmem hbad
    rcases List.mem_cons.mp hmem with h | h
    · subst h
      exact ⟨"ValueError: invalid isoformat string", by simp [parseRecords, parseRecord, hbad]⟩
    · cases hpa : parseRecord cfg fid a with
      | error e => exact ⟨e, by simp [parseRecords, hpa]⟩
      | ok d =>
        obtain ⟨e, he⟩ := ih r h hbad
        exact ⟨e, by simp [parseRecords, hpa, he]⟩

theorem slice34_short (s : String) (h : s.length < 4) : slice34 s = "" := by
  have hd : s.data.drop 3 = [] := by
    apply List.eq_nil_of_length_eq_zero
    rw [List.length_drop]
    have hlen : s.data.length = s.length := rfl
    omega
  show String.mk ((s.toList.drop 3).take 1) = ""
  have ht : s.toList = s.data := rfl
  rw [ht, hd]
  rfl

/-- C1: persistence is idempotent.  For a list of canonical documents with
pairwise-distinct `document_id`s none of which is already in the table, the
fault-free `save_documents_to_db` run reports `N = docs.length` newly added
rows; running it again on the same list reports 0 and leaves the table
content unchanged; and re-ingesting any `document_id` already present in
the table adds no duplicate row and raises no error. -/
theorem save_documents_idempotent (table : List Row) (docs : List Document)
    (hnodup : docs.Pairwise fun a b => a.document_id ≠ b.document_id)
    (hfresh : ∀ d ∈ docs, hasId table d.document_id = false) :
    (save_documents_to_db .noFault table docs).count = docs.length ∧
    save_documents_to_db .noFault (save_documents_to_db .noFault table docs).table docs =
      ⟨0, (save_documents_to_db .noFault table docs).table, false, false⟩ ∧
    (save_documents_to_db .noFault table docs).raised = false ∧
    ∀ d : Document,
      hasId (save_documents_to_db .noFault table docs).table d.document_id = true →
      save_documents_to_db .noFault (save_documents_to_db .noFault table docs).table [d] =
        ⟨0, (save_documents_to_db .noFault table docs).table, false, false⟩ := by
  have htab : (save_documents_to_db .noFault table docs).table = insertAll table docs := rfl
  refine ⟨?_, ?_, rfl, ?_⟩
  · show (insertAll table docs).length - table.length = docs.length
    rw [insertAll_length_of_fresh docs table hnodup hfresh]
    omega
  · rw [htab]
    have hall : insertAll (insertAll table docs) docs = insertAll table docs :=
      insertAll_of_all_present docs _ fun d hd => hasId_insertAll_mem docs table d hd
    show (⟨(insertAll (insertAll table docs) docs).length - (insertAll table docs).length,
        insertAll (insertAll table docs) docs, false, false⟩ : SaveOutcome) =
      ⟨0, insertAll table docs, false, false⟩
    rw [hall]
    simp
  · intro d hd
    rw [htab] at hd ⊢
    have h1 : insertAll (insertAll table docs) [d] = insertAll table docs := by
      rw [insertAll_cons, insertAll_nil]
      unfold insertDoc
      rw [if_pos hd]
    show (⟨(insertAll (insertAll table docs) [d]).length - (insertAll table docs).length,
        insertAll (insertAll table docs) [d], false, false⟩ : SaveOutcome) =
      ⟨0, insertAll table docs, false, false⟩
    rw [h1]
    simp

/-- C1 witness: the idempotence theorem at the concrete two-document list
`[exDocNagoya, exDoc2]` against the empty table. -/
theorem save_documents_idempotent_witness :
    (save_documents_to_db .noFault [] [exDocNagoya, exDoc2]).count =
      [exDocNagoya, exDoc2].length ∧
    save_documents_to_db .noFault
        (save_documents_to_db .noFault [] [exDocNagoya, exDoc2]).table [exDocNagoya, exDoc2] =
      ⟨0, (save_documents_to_db .noFault [] [exDocNagoya, exDoc2]).table, false, false⟩ ∧
    (save_documents_to_db .noFault [] [exDocNagoya, exDoc2]).raised = false ∧
    ∀ d : Document,
      hasId (save_documents_to_db .noFault [] [exDocNagoya, exDoc2]).table d.document_id = true →
      save_documents_to_db .noFault
          (save_documents_to_db .noFault [] [exDocNagoya, exDoc2]).table [d] =
        ⟨0, (save_documents_to_db .noFault [] [exDocNagoya, exDoc2]).table, false, false⟩ :=
  save_documents_idempotent [] [exDocNagoya, exDoc2] (by decide) (by decide)

/-- C2 counterexample: when the database error strikes at `conn.commit()`
after one new document was staged, `save_documents_to_db` returns the
already-computed positive count 1 (not 0) and raises nothing to the caller
(the `except pyodbc.Error` clause swallows the failure), refuting the claim
that a failed run surfaces a `PersistError` and returns zero. -/
theorem save_commit_error_counterexample :
    (save_documents_to_db .atCommit [] [exDocNagoya]).count = 1 ∧
    (save_documents_to_db .atCommit [] [exDocNagoya]).raised = false := by
  exact ⟨rfl, rfl⟩

/-- C2 amended: on any database-level error that is actually reached, no
partial write remains (the uncommitted transaction is discarded when the
connection closes, so the table is unchanged), but the error is caught,
printed and logged rather than surfaced to the caller, and the returned
count is zero except when the failure strikes at commit, in which case the
already-computed row-count delta is returned despite nothing having been
committed. -/
theorem save_db_error_rollback (fault : DbFault) (table : List Row)
    (docs : List Document) (hfires : faultFires fault docs = true) :
    (save_documents_to_db fault table docs).table = table ∧
    (save_documents_to_db fault table docs).raised = false ∧
    (save_documents_to_db fault table docs).errorLogged = true ∧
    (fault ≠ .atCommit → (save_documents_to_db fault table docs).count = 0) ∧
    (fault = .atCommit →
      (save_documents_to_db fault table docs).count =
        (insertAll table docs).length - table.length) := by
  cases fault <;> simp_all [save_documents_to_db, faultFires]

/-- C2 witness: the amended theorem at the concrete fault `atCount1` with
one document against the empty table. -/
theorem save_db_error_rollback_witness :
    (save_documents_to_db .atCount1 [] [exDocNagoya]).table = [] ∧
    (save_documents_to_db .atCount1 [] [exDocNagoya]).raised = false ∧
    (save_documents_to_db .atCount1 [] [exDocNagoya]).errorLogged = true ∧
    (DbFault.atCount1 ≠ .atCommit →
      (save_documents_to_db .atCount1 [] [exDocNagoya]).count = 0) ∧
    (DbFault.atCount1 = .atCommit →
      (save_documents_to_db .atCount1 [] [exDocNagoya]).count =
        (insertAll [] [exDocNagoya]).length - List.length ([] : List Row)) :=
  save_db_error_rollback .atCount1 [] [exDocNagoya] (by decide)

/-- C3: normalizing a 'Z'-suffixed UTC end date yields the same instant
re-expressed at the fixed +9:00 offset (32400 seconds), rendered
`YYYY-MM-DD HH:MM:SS`: the output civil date-time denotes exactly the
parsed epoch plus 32400 seconds, this is the value `parse_documents_list`
stores in the canonical document, and in particular
`"2024-03-15T01:30:00Z"` normalizes to `"2024-03-15 10:30:00"`. -/
theorem convert_end_date_tokyo (s : String) (dt : CivilDT)
    (h : parseISOZ s = some dt) :
    convert_end_date s = some (renderSQL (epochToCivilDT (civilDTtoEpoch dt + 32400))) ∧
    civilDTtoEpoch (epochToCivilDT (civilDTtoEpoch dt + 32400)) = civilDTtoEpoch dt + 32400 ∧
    (∀ (cfg : Config) (fid : Int) (r : RawRecord) (doc : Document), r.end_date = s →
      parseRecord cfg fid r = .ok doc →
      doc.end_date = renderSQL (epochToCivilDT (civilDTtoEpoch dt + 32400))) ∧
    convert_end_date "2024-03-15T01:30:00Z" = some "2024-03-15 10:30:00" := by
  have hconv : convert_end_date s =
      some (renderSQL (epochToCivilDT (civilDTtoEpoch dt + 32400))) := by
    simp [convert_end_date, h]
  refine ⟨hconv, epoch_roundtrip _, ?_, by decide⟩
  intro cfg fid r doc hre hok
  unfold parseRecord at hok
  rw [hre, hconv] at hok
  simp only [Except.ok.injEq] at hok
  subst hok
  rfl

/-- C3 witness: the conversion theorem at the concrete instant
`2024-03-15T01:30:00Z`. -/
theorem convert_end_date_tokyo_witness :
    convert_end_date "2024-03-15T01:30:00Z" =
      some (renderSQL (epochToCivilDT (civilDTtoEpoch ⟨2024, 3, 15, 1, 30, 0⟩ + 32400))) ∧
    civilDTtoEpoch (epochToCivilDT (civilDTtoEpoch ⟨2024, 3, 15, 1, 30, 0⟩ + 32400)) =
      civilDTtoEpoch ⟨2024, 3, 15, 1, 30, 0⟩ + 32400 ∧
    (∀ (cfg : Config) (fid : Int) (r : RawRecord) (doc : Document),
      r.end_date = "2024-03-15T01:30:00Z" → parseRecord cfg fid r = .ok doc →
      doc.end_date = renderSQL (epochToCivilDT (civilDTtoEpoch ⟨2024, 3, 15, 1, 30, 0⟩ + 32400))) ∧
    convert_end_date "2024-03-15T01:30:00Z" = some "2024-03-15 10:30:00" :=
  convert_end_date_tokyo "2024-03-15T01:30:00Z" ⟨2024, 3, 15, 1, 30, 0⟩ (by decide)

/-- C4: factory-code resolution for `form_id = 40`.  The code is
`document_number[3:4]` (empty, hence not a map key of single-character
keys, when the string is shorter than 4 characters); a mapped code yields
the mapped name, an unmapped code yields the sentinel `"不明"` and no
error; concretely `"AB1CDEF"` with map `{"C": "Nagoya"}` gives
`"Nagoya"`, and with the empty map gives `"不明"`. -/
theorem parse_factory_resolution (cfg : Config) (r : RawRecord) (doc : Document)
    (hok : parseRecord cfg 40 r = .ok doc) :
    (∀ v, cfg.request_factory_list.lookup (slice34 r.document_number) = some v →
      doc.request_factory = some v) ∧
    (cfg.request_factory_list.lookup (slice34 r.document_number) = none →
      doc.request_factory = some "不明") ∧
    (r.document_number.length < 4 → slice34 r.document_number = "") ∧
    (∀ cfg2 : Config, (convert_end_date r.end_date).isSome = true →
      ∃ doc2, parseRecord cfg2 40 r = .ok doc2) ∧
    parseRecord exCfg 40 exRec = .ok exDocNagoya ∧
    exDocNagoya.request_factory = some "Nagoya" ∧
    parseRecord exCfgEmpty 40 exRec = .ok exDocUnknown ∧
    exDocUnknown.request_factory = some "不明" := by
  cases hc : convert_end_date r.end_date with
  | none =>
    unfold parseRecord at hok
    rw [hc] at hok
    cases hok
  | some fed =>
    unfold parseRecord at hok
    rw [hc] at hok
    simp only [Except.ok.injEq] at hok
    subst hok
    refine ⟨?_, ?_, fun hlen => slice34_short _ hlen, ?_, by rfl, by decide,
      by rfl, by decide⟩
    · intro v hv
      simp [hv]
    · intro hn
      simp [hn]
    · intro cfg2 hs
      exact ⟨_, by unfold parseRecord; rw [hc]⟩

/-- C4 witness: the factory-resolution theorem at the concrete record
`exRec` under `exCfg`. -/
theorem parse_factory_resolution_witness :
    (∀ v, exCfg.request_factory_list.lookup (slice34 exRec.document_number) = some v →
      exDocNagoya.request_factory = some v) ∧
    (exCfg.request_factory_list.lookup (slice34 exRec.document_number) = none →
      exDocNagoya.request_factory = some "不明") ∧
    (exRec.document_number.length < 4 → slice34 exRec.document_number = "") ∧
    (∀ cfg2 : Config, (convert_end_date exRec.end_date).isSome = true →
      ∃ doc2, parseRecord cfg2 40 exRec = .ok doc2) ∧
    parseRecord exCfg 40 exRec = .ok exDocNagoya ∧
    exDocNagoya.request_factory = some "Nagoya" ∧
    parseRecord exCfgEmpty 40 exRec = .ok exDocUnknown ∧
    exDocUnknown.request_factory = some "不明" :=
  parse_factory_resolution exCfg exRec exDocNagoya (by rfl)

/-- C5: for every form id other than 40, no canonical document emitted by
`parse_documents_list` carries a `request_factory` key. -/
theorem parse_no_factory_other_forms (cfg : Config) (data : RawData) (fid : Int)
    (docs : List Document) (h40 : fid ≠ 40)
    (hok : parse_documents_list cfg data fid = .ok docs) :
    ∀ doc ∈ docs, doc.request_factory = none := by
  intro doc hd
  unfold parse_documents_list at hok
  cases hr : data.records with
  | none =>
    rw [hr] at hok
    simp only [Except.ok.injEq] at hok
    subst hok
    cases hd
  | some recs =>
    rw [hr] at hok
    obtain ⟨r, _, hrp⟩ := parseRecords_ok_mem cfg fid recs docs hok doc hd
    exact parseRecord_factory_none cfg fid r doc h40 hrp

/-- C5 witness: the theorem at the concrete record list `[exRec]` with
`form_id = 41`. -/
theorem parse_no_factory_other_forms_witness :
    exDoc41.request_factory = none :=
  parse_no_factory_other_forms exCfg ⟨some [exRec]⟩ 41 [exDoc41] (by decide) (by rfl)
    exDoc41 (List.mem_singleton_self exDoc41)

/-- C6: a fetch response without a top-level `records` key normalizes to
the empty list, and persisting the empty list reports 0 newly added rows,
raises nothing, and leaves the table unchanged (for every injected fault,
since the empty insert loop stages no rows). -/
theorem empty_records_zero_saved (cfg : Config) (data : RawData) (fid : Int)
    (table : List Row) (fault : DbFault) (h : data.records = none) :
    parse_documents_list cfg data fid = .ok [] ∧
    (save_documents_to_db fault table []).count = 0 ∧
    (save_documents_to_db fault table []).raised = false ∧
    (save_documents_to_db fault table []).table = table := by
  refine ⟨by simp [parse_documents_list, h], ?_, ?_, ?_⟩ <;>
    cases fault <;> simp [save_documents_to_db, insertAll_nil]

/-- C6 witness: the theorem at a concrete record-less response, the empty
table and a fault-free run. -/
theorem empty_records_zero_saved_witness :
    parse_documents_list exCfg ⟨none⟩ 40 = .ok [] ∧
    (save_documents_to_db .noFault [] []).count = 0 ∧
    (save_documents_to_db .noFault [] []).raised = false ∧
    (save_documents_to_db .noFault [] []).table = ([] : List Row) :=
  empty_records_zero_saved exCfg ⟨none⟩ 40 [] .noFault rfl

/-- C7: the auth key builder is exactly standard Base64 over the UTF-8
bytes of `user_id + "/apikey:" + api_key` (a pure function), and
`generate_auth_key "alice" "key123"` equals the Base64 encoding of
`"alice/apikey:key123"`, namely `"YWxpY2UvYXBpa2V5OmtleTEyMw=="`. -/
theorem generate_auth_key_base64 :
    (∀ user_id api_key : String,
      generate_auth_key user_id api_key =
        base64Encode (utf8Bytes (user_id ++ "/apikey:" ++ api_key))) ∧
    generate_auth_key "alice" "key123" = "YWxpY2UvYXBpa2V5OmtleTEyMw==" :=
  ⟨fun _ _ => rfl, by decide⟩

/-- C8 counterexample: a batch whose first record has an unparsable
`end_date` makes the whole `parse_documents_list` call fail — the second,
well-formed record (which normalizes fine on its own) is not normalized,
refuting the claim that per-record failures are isolated. -/
theorem parse_batch_abort_counterexample :
    parse_documents_list exCfg ⟨some [badRec, exRec]⟩ 40 =
      .error "ValueError: invalid isoformat string" ∧
    parse_documents_list exCfg ⟨some [exRec]⟩ 40 = .ok [exDocNagoya] :=
  ⟨rfl, rfl⟩

/-- C8 amended: per-record failures are NOT isolated — whenever any record
of the batch has an `end_date` the parser rejects, the `ValueError`
propagates out of the record loop and the whole normalization call fails,
yielding no documents at all. -/
theorem parse_documents_aborts_on_bad_record (cfg : Config) (fid : Int)
    (recs : List RawRecord) (r : RawRecord) (hmem : r ∈ recs)
    (hbad : convert_end_date r.end_date = none) :
    ∃ e, parse_documents_list cfg ⟨some recs⟩ fid = .error e := by
  obtain ⟨e, he⟩ := parseRecords_error_of_bad cfg fid recs r hmem hbad
  exact ⟨e, by simpa [parse_documents_list] using he⟩

/-- C8 witness: the amended theorem at the concrete batch
`[badRec, exRec]`. -/
theorem parse_documents_aborts_on_bad_record_witness :
    ∃ e, parse_documents_list exCfg ⟨some [badRec, exRec]⟩ 40 = .error e :=
  parse_documents_aborts_on_bad_record exCfg 40 [badRec, exRec] badRec (by decide) (by decide)

/-- C9: when the fetcher returns nothing usable (`get_data` gave `None`),
`main` prints the failure message and performs no persistence action:
normalization is never invoked, no save happens, and the destination table
is unchanged. -/
theorem fetch_failure_no_persistence (cfg : Config) (fid : Int) (fault : DbFault)
    (table : List Row) :
    (main_run cfg none fid fault table).printedFailure = true ∧
    (main_run cfg none fid fault table).parseAttempted = false ∧
    (main_run cfg none fid fault table).saveAttempted = false ∧
    (main_run cfg none fid fault table).table = table :=
  ⟨rfl, rfl, rfl, rfl⟩

/-- C10: on the fetch-failure branch, after the failure print `main`
evaluates `logging.ERROR("...")`; `logging.ERROR` is the integer level
constant 40, not a callable, so the call raises `TypeError` and the run
terminates with an uncaught exception (the table still untouched). -/
theorem fetch_failure_type_error_crash (cfg : Config) (fid : Int) (fault : DbFault)
    (table : List Row) :
    (main_run cfg none fid fault table).crashed = some "TypeError" ∧
    (main_run cfg none fid fault table).table = table :=
  ⟨rfl, rfl⟩
